import Mathlib

/-!
# Uniq: `functions/uploadSecrets.js`

A shallow embedding of the script `src/functions/uploadSecrets.js` and the
properties its specification states about it.

The script reads four variables of the process environment, builds a signer
with `ethers`, encrypts two secrets with the `SecretsManager` of
`@chainlink/functions-toolkit` and uploads them to the DON gateways. Both
libraries are outside the repository: their behaviour is a parameter of the
model (`World`), and a run of the script is the list of the calls it makes
out of the script (`Event`), each with what the call settled to, together
with the completion of the `async` function.

Every awaited call is taken to settle: it returns a value or throws.
-/

namespace Uniq

/-! ## Values -/

/-- The value of `process.env.NAME`: `undefined` (`none`) or a string. -/
abbrev EnvValue := Option String

/-- The process environment, `process.env`. -/
abbrev Env := String → EnvValue

/-- A thrown value: an error object with its `name` and its `message`. -/
structure Thrown where
  name : String
  message : String
deriving DecidableEq, Repr

/-- The object `new Error(message)` (also `Error(message)`, line 52). -/
def newError (message : String) : Thrown := ⟨"Error", message⟩

/-- How an evaluation settles: it returns a value or it throws. -/
inductive Completion (α : Type) where
  | normal (value : α)
  | throw (error : Thrown)
deriving DecidableEq, Repr

/-- The operator `!` on an environment value: `undefined` and the empty string
are the falsy ones. -/
def EnvValue.not : EnvValue → Bool
  | none => true
  | some s => s == ""

/-- The abstract operation `ToString` on a value that is `undefined` or a
string, as a template literal and `parseInt` apply it. -/
def toStringValue : Option String → String
  | none => "undefined"
  | some s => s

/-! ## The objects of the two libraries

The script never looks inside them: it only hands them on. Each is a
reference the library chose. -/

/-- An `ethers.providers.JsonRpcProvider`. -/
structure Provider where
  ref : Nat
deriving DecidableEq, Repr

/-- An `ethers.Wallet` without provider. -/
structure Wallet where
  ref : Nat
deriving DecidableEq, Repr

/-- The wallet connected to a provider, `wallet.connect(provider)`. -/
structure Signer where
  ref : Nat
deriving DecidableEq, Repr

/-- A `SecretsManager` of the functions toolkit. -/
structure SecretsManager where
  ref : Nat
deriving DecidableEq, Repr

/-- The argument of `new SecretsManager({...})`, lines 32-36. -/
structure SecretsManagerConfig where
  signer : Signer
  functionsRouterAddress : String
  donId : String
deriving DecidableEq, Repr

/-- The object literal of lines 22-25: its own properties in the order they
are written, each with its value; a property whose value is `undefined` is
still a property. -/
abbrev Secrets := List (String × EnvValue)

/-- Modelled from the spec: the value `encryptSecrets` resolves to,
`{encryptedSecrets: hexstring}` (the toolkit is not part of the repository). -/
structure EncryptedSecrets where
  encryptedSecrets : String
deriving DecidableEq, Repr

/-- The argument of `uploadEncryptedSecretsToDON`, lines 44-49. -/
structure UploadArgs where
  encryptedSecretsHexstring : String
  gatewayUrls : List String
  slotId : Nat
  minutesUntilExpiration : Nat
deriving DecidableEq, Repr

/-- Modelled from the spec: the value `uploadEncryptedSecretsToDON` resolves
to, `{success: bool, errorMessage?: string, version: string}`, where a
property that is absent reads as `undefined` (the toolkit is not part of the
repository). -/
structure UploadResult where
  success : Bool
  errorMessage : Option String
  version : Option String
deriving DecidableEq, Repr

/-- The behaviour of the two libraries: what each constructor and each method
the script calls settles to, for every receiver and argument. A run calls
each of them at most once, so any behaviour of the libraries during one run
is of this form; two runs may meet two different behaviours. -/
structure World where
  newJsonRpcProvider : EnvValue → Completion Provider
  newWallet : EnvValue → Completion Wallet
  connect : Wallet → Provider → Completion Signer
  newSecretsManager : SecretsManagerConfig → Completion SecretsManager
  initializeManager : SecretsManager → Completion Unit
  encryptSecrets : SecretsManager → Secrets → Completion EncryptedSecrets
  uploadEncryptedSecretsToDON : SecretsManager → UploadArgs → Completion UploadResult

/-! ## Numbers: `parseInt` and the number in a template literal

`parseInt` (ECMA-262, 19.2.5) is applied to `uploadResult.version` with no
radix; it returns `NaN` or an integral Number. A Number is a double: an
integer above `2 ^ 53` is rounded to 53 significant bits. -/

/-- The Number values `parseInt` can return: `NaN`, an integral finite value
with its sign (`-0` is `finite true 0`), or an infinity. -/
inductive JSNumber where
  | nan
  | finite (negative : Bool) (magnitude : Nat)
  | infinity (negative : Bool)
deriving DecidableEq, Repr

/-- The position of the highest set bit of `n`, by halving at most `fuel`
times. -/
def floorLog2Aux : Nat → Nat → Nat
  | 0, _ => 0
  | fuel + 1, n => if 2 ≤ n then floorLog2Aux fuel (n / 2) + 1 else 0

/-- The position of the highest set bit of `n` (`0` for `n = 0`). -/
def floorLog2 (n : Nat) : Nat := floorLog2Aux n n

/-- The integer nearest to `m` that has at most 53 significant bits, ties to
the even significand: the rounding of a non-negative integer to a double (not
yet cut off at the largest finite double). -/
def roundTiesToEven (m : Nat) : Nat :=
  if m < 2 ^ 53 then m
  else
    let e := floorLog2 m - 52
    let q := m / 2 ^ e
    let r := m % 2 ^ e
    let half := 2 ^ (e - 1)
    if r < half then q * 2 ^ e
    else if half < r then (q + 1) * 2 ^ e
    else if q % 2 = 0 then q * 2 ^ e
    else (q + 1) * 2 ^ e

/-- The Number value of the non-zero integer `mathInt` with the given sign:
what rounds to `2 ^ 1024` or more (a value of more than 1024 bits) is an
infinity. -/
def toNumber (negative : Bool) (mathInt : Nat) : JSNumber :=
  let v := roundTiesToEven mathInt
  if floorLog2 v < 1024 then .finite negative v else .infinity negative

/-- The characters `parseInt` skips at the start of its input: white space
and line terminators (`StrWhiteSpaceChar`). -/
def isStrWhiteSpaceChar (c : Char) : Bool :=
  let u := c.toNat
  u == 0x09 || u == 0x0A || u == 0x0B || u == 0x0C || u == 0x0D || u == 0x20
    || u == 0xA0 || u == 0x1680 || (0x2000 ≤ u && u ≤ 0x200A) || u == 0x2028
    || u == 0x2029 || u == 0x202F || u == 0x205F || u == 0x3000 || u == 0xFEFF

/-- The value of a character as a digit: `0`-`9`, then the letters of either
case from ten on. -/
def digitValue (c : Char) : Option Nat :=
  let u := c.toNat
  if 48 ≤ u ∧ u ≤ 57 then some (u - 48)
  else if 97 ≤ u ∧ u ≤ 122 then some (u - 87)
  else if 65 ≤ u ∧ u ≤ 90 then some (u - 55)
  else none

/-- The values of the longest run of radix-`R` digits at the start of the
input. -/
def radixDigits (R : Nat) : List Char → List Nat
  | [] => []
  | c :: cs =>
    match digitValue c with
    | some d => if d < R then d :: radixDigits R cs else []
    | none => []

/-- With no radix argument `parseInt` reads radix 16 after a `0x` or `0X`
mark, which it removes, and radix 10 otherwise. -/
def stripRadixMark : List Char → Nat × List Char
  | '0' :: 'x' :: rest => (16, rest)
  | '0' :: 'X' :: rest => (16, rest)
  | S => (10, S)

/-- The input of `parseInt` after the leading white space and one sign. -/
def afterSign (inputString : String) : List Char :=
  let S := inputString.toList.dropWhile isStrWhiteSpaceChar
  if S.head? == some '+' || S.head? == some '-' then S.tail else S

/-- The call `parseInt(string)` of line 56, radix absent: `ToString`, leading
white space skipped, one sign, a `0x` or `0X` mark for radix 16, then the
longest run of digits; no digit gives `NaN`. (Past twenty significant decimal
digits the standard lets an engine replace digits by zeros; this is the exact
reading.) -/
def parseInt (string : Option String) : JSNumber :=
  let inputString := toStringValue string
  let negative :=
    (inputString.toList.dropWhile isStrWhiteSpaceChar).head? == some '-'
  let (R, S) := stripRadixMark (afterSign inputString)
  let Z := radixDigits R S
  if Z.isEmpty then .nan
  else
    let mathInt := Z.foldl (fun acc d => acc * R + d) 0
    if mathInt = 0 then .finite negative 0 else toNumber negative mathInt

/-- The pairs `(s, n)` with `k` digits in `s` for which `s * 10 ^ (n - k)`
rounds to the double `m`; `d` is the number of decimal digits of `m`. -/
def shortestCandidates (m d k : Nat) : List (Nat × Nat) :=
  ([d, d + 1].filter (k ≤ ·)).flatMap fun n =>
    ([m / 10 ^ (n - k), m / 10 ^ (n - k) + 1].filter fun s =>
      10 ^ (k - 1) ≤ s && s < 10 ^ k && roundTiesToEven (s * 10 ^ (n - k)) == m).map
      fun s => (s, n)

/-- The distance between two naturals. -/
def dist (a b : Nat) : Nat := (a - b) + (b - a)

/-- Of two candidates the one whose value is nearer to `m`, the even `s` when
both are as near. -/
def closer (m k : Nat) (a b : Nat × Nat) : Nat × Nat :=
  let da := dist (a.1 * 10 ^ (a.2 - k)) m
  let db := dist (b.1 * 10 ^ (b.2 - k)) m
  if db < da then b else if da < db then a else if a.1 % 2 = 0 then a else b

/-- The best candidate with `k` digits, if there is one. -/
def shortestAt (m d k : Nat) : Option (Nat × Nat) :=
  match shortestCandidates m d k with
  | [] => none
  | c :: cs => some (cs.foldl (closer m k) c)

/-- The `k`, `s` and `n` of `Number::toString` for an integral double `m`:
the fewest digits that still identify `m`. -/
def shortest (m : Nat) : Nat × Nat × Nat :=
  let d := (Nat.repr m).length
  match (List.range d).findSome? fun i => (shortestAt m d (i + 1)).map fun c => (i + 1, c) with
  | some (k, s, n) => (k, s, n)
  | none => (d, m, d)

/-- The decimal text of a positive integral double (`Number::toString`,
ECMA-262 6.1.6.1.20). Up to `2 ^ 53` every integer is a double, so the fewest
digits that identify `m` are its decimal numeral; above, the digits of
`shortest`, followed by zeros up to 21 digits and in exponent form beyond. -/
def positiveToString (m : Nat) : String :=
  if m ≤ 2 ^ 53 then Nat.repr m
  else
    let (k, s, n) := shortest m
    if n ≤ 21 then Nat.repr s ++ String.mk (List.replicate (n - k) '0')
    else
      let digits := (Nat.repr s).toList
      let mantissa := if k = 1 then digits else digits.take 1 ++ '.' :: digits.drop 1
      String.mk mantissa ++ "e+" ++ Nat.repr (n - 1)

/-- The text a template literal puts for a Number (`ToString`). -/
def numberToString : JSNumber → String
  | .nan => "NaN"
  | .finite _ 0 => "0"
  | .finite negative m => (if negative then "-" else "") ++ positiveToString m
  | .infinity negative => if negative then "-Infinity" else "Infinity"

/-! ## Runs -/

/-- A call out of the script, with its receiver, its arguments and what it
settled to. -/
inductive Event where
  | newJsonRpcProvider (url : EnvValue) (result : Completion Provider)
  | newWallet (privateKey : EnvValue) (result : Completion Wallet)
  | connect (wallet : Wallet) (provider : Provider) (result : Completion Signer)
  | newSecretsManager (config : SecretsManagerConfig) (result : Completion SecretsManager)
  | initializeManager (manager : SecretsManager) (result : Completion Unit)
  | encryptSecrets (manager : SecretsManager) (secrets : Secrets)
      (result : Completion EncryptedSecrets)
  | uploadEncryptedSecretsToDON (manager : SecretsManager) (args : UploadArgs)
      (result : Completion UploadResult)
  | consoleLog (text : String)
  | parseInt (string : Option String) (result : JSNumber)
  | consoleError (error : Thrown)
  | processExit (code : Nat)
deriving DecidableEq, Repr

/-- A piece of the script: the calls it made, in order, and how it settled. -/
abbrev Script (α : Type) := List Event × Completion α

/-- Sequencing: a throw ends the script, otherwise the calls of the rest
follow. -/
def Script.bind {α β : Type} (m : Script α) (f : α → Script β) : Script β :=
  match m with
  | (t, .throw e) => (t, .throw e)
  | (t, .normal a) => (t ++ (f a).1, (f a).2)

instance : Monad Script where
  pure a := ([], .normal a)
  bind := Script.bind

/-- The statement `throw e`. -/
def raise {α : Type} (e : Thrown) : Script α := ([], .throw e)

/-- A call of a built-in that returns: it is recorded. -/
def emit (event : Event) : Script Unit := ([event], .normal ())

/-- A call out of the script (awaited where the source awaits it): it is
recorded and the script goes on with its value or throws what it threw. -/
def call {α : Type} (event : Completion α → Event) (result : Completion α) : Script α :=
  ([event result], result)

/-- The function `uploadSecrets` (lines 4-58). The upload result is a plain
object, so the template literal of line 55 puts `[object Object]` for it. -/
def uploadSecrets (env : Env) (w : World) : Script Unit := do
  let routerAddress := "0xb83e47c2bc239b3bf370bc41e1459a34b41238d0"
  let donId := "fun-ethereum-sepolia-1"
  let gatewayUrls := [
    "https://01.functions-gateway.testnet.chain.link/",
    "https://02.functions-gateway.testnet.chain.link/"
  ]

  let privateKey := env "PRIVATE_KEY"
  if privateKey.not then
    raise (newError "private key not provided - check your environment variables")

  let rpcUrl := env "SEPOLIA_RPC_URL"
  if rpcUrl.not then
    raise (newError "rpcUrl not provided  - check your environment variables")

  let secrets : Secrets := [
    ("alpacaKey", env "ALPACA_API_KEY"),
    ("alpacaSecret", env "ALPACA_SECRET_KEY")
  ]

  let provider ← call (.newJsonRpcProvider rpcUrl) (w.newJsonRpcProvider rpcUrl)

  let wallet ← call (.newWallet privateKey) (w.newWallet privateKey)
  let signer ← call (.connect wallet provider) (w.connect wallet provider)

  let config : SecretsManagerConfig :=
    { signer := signer, functionsRouterAddress := routerAddress, donId := donId }
  let secretsManager ← call (.newSecretsManager config) (w.newSecretsManager config)

  call (.initializeManager secretsManager) (w.initializeManager secretsManager)

  let encryptedSecrets ←
    call (.encryptSecrets secretsManager secrets) (w.encryptSecrets secretsManager secrets)
  let slotIdNumber := 0
  let expirationTimeMinutes := 1440

  let args : UploadArgs :=
    { encryptedSecretsHexstring := encryptedSecrets.encryptedSecrets
      gatewayUrls := gatewayUrls
      slotId := slotIdNumber
      minutesUntilExpiration := expirationTimeMinutes }
  let uploadResult ←
    call (.uploadEncryptedSecretsToDON secretsManager args)
      (w.uploadEncryptedSecretsToDON secretsManager args)

  if !uploadResult.success then
    raise
      (newError ("Failed to upload secrets: " ++ toStringValue uploadResult.errorMessage))

  emit (.consoleLog "\n Secrets uploaded successfully! response: [object Object]")
  let donHostedSecretsVersion := parseInt uploadResult.version
  emit (.parseInt uploadResult.version donHostedSecretsVersion)
  emit (.consoleLog ("Secrets version: " ++ numberToString donHostedSecretsVersion))

/-- The outcome of the process: every call made, and the exit code. -/
structure Outcome where
  trace : List Event
  exitCode : Nat
deriving DecidableEq, Repr

/-- The statement at the top level (lines 60-63): `uploadSecrets()` with a
handler that prints what it threw and exits with code 1. When nothing is
thrown the process ends by itself, with code 0. -/
def main (env : Env) (w : World) : Outcome :=
  match uploadSecrets env w with
  | (t, .normal _) => { trace := t, exitCode := 0 }
  | (t, .throw error) =>
    { trace := t ++ [.consoleError error, .processExit 1], exitCode := 1 }

/-! ## Vocabulary of the specification -/

/-- The character is one of `0` to `9`. -/
def isDecimalDigit (c : Char) : Bool := decide (48 ≤ c.toNat) && decide (c.toNat ≤ 57)

/-- The input starts with a digit of radix `R`. -/
def startsWithDigit (R : Nat) : List Char → Bool
  | [] => false
  | c :: _ =>
    match digitValue c with
    | some d => decide (d < R)
    | none => false

/-- No number starts the string: after the leading white space, one sign and a
`0x` or `0X` mark, nothing is left or the first character is not a digit of
the radix (16 after the mark, 10 without it). -/
def NonNumeric (s : String) : Prop :=
  startsWithDigit (stripRadixMark (afterSign s)).1 (stripRadixMark (afterSign s)).2 = false

instance (s : String) : Decidable (NonNumeric s) :=
  inferInstanceAs (Decidable (_ = false))

/-- The message of the error contains the text. -/
def mentions (e : Thrown) (text : String) : Prop := text.toList <:+: e.message.toList

instance (e : Thrown) (text : String) : Decidable (mentions e text) :=
  inferInstanceAs (Decidable (text.toList <:+: e.message.toList))

/-- The error of line 14. -/
def privateKeyError : Thrown :=
  newError "private key not provided - check your environment variables"

/-- The error of line 20. -/
def rpcUrlError : Thrown :=
  newError "rpcUrl not provided  - check your environment variables"

/-- The secrets object of lines 22-25 for an environment. -/
def secretsOf (env : Env) : Secrets :=
  [("alpacaKey", env "ALPACA_API_KEY"), ("alpacaSecret", env "ALPACA_SECRET_KEY")]

/-- The configuration of lines 32-36 for a signer. -/
def configOf (s : Signer) : SecretsManagerConfig :=
  { signer := s
    functionsRouterAddress := "0xb83e47c2bc239b3bf370bc41e1459a34b41238d0"
    donId := "fun-ethereum-sepolia-1" }

/-- The argument of the upload call for an encrypted payload, lines 44-49. -/
def uploadArgsOf (enc : EncryptedSecrets) : UploadArgs :=
  { encryptedSecretsHexstring := enc.encryptedSecrets
    gatewayUrls :=
      ["https://01.functions-gateway.testnet.chain.link/",
       "https://02.functions-gateway.testnet.chain.link/"]
    slotId := 0
    minutesUntilExpiration := 1440 }

/-- The four constructions of lines 27-36, all returning. -/
def constructed (env : Env) (p : Provider) (wl : Wallet) (s : Signer) (sm : SecretsManager) :
    List Event :=
  [.newJsonRpcProvider (env "SEPOLIA_RPC_URL") (.normal p),
   .newWallet (env "PRIVATE_KEY") (.normal wl),
   .connect wl p (.normal s),
   .newSecretsManager (configOf s) (.normal sm)]

/-- The event is a call of one of the three methods of the secrets manager:
`initialize`, `encryptSecrets`, `uploadEncryptedSecretsToDON`. -/
def Event.isCollaboratorCall : Event → Bool
  | .initializeManager _ _ => true
  | .encryptSecrets _ _ _ => true
  | .uploadEncryptedSecretsToDON _ _ _ => true
  | _ => false

/-- The event is a call of one of the three methods of the secrets manager
that threw `e`. -/
def Event.threw (e : Thrown) : Event → Prop
  | .initializeManager _ r => r = .throw e
  | .encryptSecrets _ _ r => r = .throw e
  | .uploadEncryptedSecretsToDON _ _ r => r = .throw e
  | _ => False

/-- The ways a run of `uploadSecrets` can go, each with what the libraries
answered, the calls it makes and how it settles. -/
inductive RunShape (env : Env) (w : World) : Script Unit → Prop where
  | noPrivateKey (h1 : (env "PRIVATE_KEY").not = true) :
      RunShape env w ([], .throw privateKeyError)
  | noRpcUrl (h1 : (env "PRIVATE_KEY").not = false) (h2 : (env "SEPOLIA_RPC_URL").not = true) :
      RunShape env w ([], .throw rpcUrlError)
  | providerThrew (h1 : (env "PRIVATE_KEY").not = false)
      (h2 : (env "SEPOLIA_RPC_URL").not = false) (e : Thrown)
      (hp : w.newJsonRpcProvider (env "SEPOLIA_RPC_URL") = .throw e) :
      RunShape env w ([.newJsonRpcProvider (env "SEPOLIA_RPC_URL") (.throw e)], .throw e)
  | walletThrew (h1 : (env "PRIVATE_KEY").not = false)
      (h2 : (env "SEPOLIA_RPC_URL").not = false) (p : Provider) (e : Thrown)
      (hp : w.newJsonRpcProvider (env "SEPOLIA_RPC_URL") = .normal p)
      (hw : w.newWallet (env "PRIVATE_KEY") = .throw e) :
      RunShape env w
        ([.newJsonRpcProvider (env "SEPOLIA_RPC_URL") (.normal p),
          .newWallet (env "PRIVATE_KEY") (.throw e)], .throw e)
  | connectThrew (h1 : (env "PRIVATE_KEY").not = false)
      (h2 : (env "SEPOLIA_RPC_URL").not = false) (p : Provider) (wl : Wallet) (e : Thrown)
      (hp : w.newJsonRpcProvider (env "SEPOLIA_RPC_URL") = .normal p)
      (hw : w.newWallet (env "PRIVATE_KEY") = .normal wl)
      (hs : w.connect wl p = .throw e) :
      RunShape env w
        ([.newJsonRpcProvider (env "SEPOLIA_RPC_URL") (.normal p),
          .newWallet (env "PRIVATE_KEY") (.normal wl),
          .connect wl p (.throw e)], .throw e)
  | managerThrew (h1 : (env "PRIVATE_KEY").not = false)
      (h2 : (env "SEPOLIA_RPC_URL").not = false) (p : Provider) (wl : Wallet) (s : Signer) (e : Thrown)
      (hp : w.newJsonRpcProvider (env "SEPOLIA_RPC_URL") = .normal p)
      (hw : w.newWallet (env "PRIVATE_KEY") = .normal wl)
      (hs : w.connect wl p = .normal s)
      (hm : w.newSecretsManager (configOf s) = .throw e) :
      RunShape env w
        ([.newJsonRpcProvider (env "SEPOLIA_RPC_URL") (.normal p),
          .newWallet (env "PRIVATE_KEY") (.normal wl),
          .connect wl p (.normal s),
          .newSecretsManager (configOf s) (.throw e)], .throw e)
  | initializeThrew (h1 : (env "PRIVATE_KEY").not = false)
      (h2 : (env "SEPOLIA_RPC_URL").not = false) (p : Provider) (wl : Wallet) (s : Signer)
      (sm : SecretsManager) (e : Thrown)
      (hp : w.newJsonRpcProvider (env "SEPOLIA_RPC_URL") = .normal p)
      (hw : w.newWallet (env "PRIVATE_KEY") = .normal wl)
      (hs : w.connect wl p = .normal s)
      (hm : w.newSecretsManager (configOf s) = .normal sm)
      (hi : w.initializeManager sm = .throw e) :
      RunShape env w
        (constructed env p wl s sm ++ [.initializeManager sm (.throw e)], .throw e)
  | encryptThrew (h1 : (env "PRIVATE_KEY").not = false)
      (h2 : (env "SEPOLIA_RPC_URL").not = false) (p : Provider) (wl : Wallet) (s : Signer)
      (sm : SecretsManager) (e : Thrown)
      (hp : w.newJsonRpcProvider (env "SEPOLIA_RPC_URL") = .normal p)
      (hw : w.newWallet (env "PRIVATE_KEY") = .normal wl)
      (hs : w.connect wl p = .normal s)
      (hm : w.newSecretsManager (configOf s) = .normal sm)
      (hi : w.initializeManager sm = .normal ())
      (he : w.encryptSecrets sm (secretsOf env) = .throw e) :
      RunShape env w
        (constructed env p wl s sm ++
          [.initializeManager sm (.normal ()),
           .encryptSecrets sm (secretsOf env) (.throw e)], .throw e)
  | uploadThrew (h1 : (env "PRIVATE_KEY").not = false)
      (h2 : (env "SEPOLIA_RPC_URL").not = false) (p : Provider) (wl : Wallet) (s : Signer)
      (sm : SecretsManager) (enc : EncryptedSecrets) (e : Thrown)
      (hp : w.newJsonRpcProvider (env "SEPOLIA_RPC_URL") = .normal p)
      (hw : w.newWallet (env "PRIVATE_KEY") = .normal wl)
      (hs : w.connect wl p = .normal s)
      (hm : w.newSecretsManager (configOf s) = .normal sm)
      (hi : w.initializeManager sm = .normal ())
      (he : w.encryptSecrets sm (secretsOf env) = .normal enc)
      (hu : w.uploadEncryptedSecretsToDON sm (uploadArgsOf enc) = .throw e) :
      RunShape env w
        (constructed env p wl s sm ++
          [.initializeManager sm (.normal ()),
           .encryptSecrets sm (secretsOf env) (.normal enc),
           .uploadEncryptedSecretsToDON sm (uploadArgsOf enc) (.throw e)], .throw e)
  | uploadRefused (h1 : (env "PRIVATE_KEY").not = false)
      (h2 : (env "SEPOLIA_RPC_URL").not = false) (p : Provider) (wl : Wallet) (s : Signer)
      (sm : SecretsManager) (enc : EncryptedSecrets) (r : UploadResult)
      (hp : w.newJsonRpcProvider (env "SEPOLIA_RPC_URL") = .normal p)
      (hw : w.newWallet (env "PRIVATE_KEY") = .normal wl)
      (hs : w.connect wl p = .normal s)
      (hm : w.newSecretsManager (configOf s) = .normal sm)
      (hi : w.initializeManager sm = .normal ())
      (he : w.encryptSecrets sm (secretsOf env) = .normal enc)
      (hu : w.uploadEncryptedSecretsToDON sm (uploadArgsOf enc) = .normal r)
      (hr : r.success = false) :
      RunShape env w
        (constructed env p wl s sm ++
          [.initializeManager sm (.normal ()),
           .encryptSecrets sm (secretsOf env) (.normal enc),
           .uploadEncryptedSecretsToDON sm (uploadArgsOf enc) (.normal r)],
         .throw (newError ("Failed to upload secrets: " ++ toStringValue r.errorMessage)))
  | uploaded (h1 : (env "PRIVATE_KEY").not = false)
      (h2 : (env "SEPOLIA_RPC_URL").not = false) (p : Provider) (wl : Wallet) (s : Signer)
      (sm : SecretsManager) (enc : EncryptedSecrets) (r : UploadResult)
      (hp : w.newJsonRpcProvider (env "SEPOLIA_RPC_URL") = .normal p)
      (hw : w.newWallet (env "PRIVATE_KEY") = .normal wl)
      (hs : w.connect wl p = .normal s)
      (hm : w.newSecretsManager (configOf s) = .normal sm)
      (hi : w.initializeManager sm = .normal ())
      (he : w.encryptSecrets sm (secretsOf env) = .normal enc)
      (hu : w.uploadEncryptedSecretsToDON sm (uploadArgsOf enc) = .normal r)
      (hr : r.success = true) :
      RunShape env w
        (constructed env p wl s sm ++
          [.initializeManager sm (.normal ()),
           .encryptSecrets sm (secretsOf env) (.normal enc),
           .uploadEncryptedSecretsToDON sm (uploadArgsOf enc) (.normal r),
           .consoleLog "\n Secrets uploaded successfully! response: [object Object]",
           .parseInt r.version (parseInt r.version),
           .consoleLog ("Secrets version: " ++ numberToString (parseInt r.version))],
         .normal ())

/-- The event is a call of `encryptSecrets`. -/
def Event.isEncryptSecrets : Event → Bool
  | .encryptSecrets _ _ _ => true
  | _ => false

/-- The event is a call of one of the three methods of the secrets manager
that threw. -/
def Event.failed : Event → Bool
  | .initializeManager _ (.throw _) => true
  | .encryptSecrets _ _ (.throw _) => true
  | .uploadEncryptedSecretsToDON _ _ (.throw _) => true
  | _ => false

/-! ## Sample runs -/

/-- An environment with both required variables and one of the two secrets. -/
def sampleEnv : Env := fun name =>
  if name = "PRIVATE_KEY" then some "0x0123"
  else if name = "SEPOLIA_RPC_URL" then some "https://rpc.example"
  else if name = "ALPACA_API_KEY" then some "key"
  else none

/-- An environment with the two required variables and neither secret. -/
def requiredOnlyEnv : Env := fun name =>
  if name = "PRIVATE_KEY" then some "0x0123"
  else if name = "SEPOLIA_RPC_URL" then some "https://rpc.example"
  else none

/-- An environment with no variable set. -/
def emptyEnv : Env := fun _ => none

/-- An environment with the private key only, the RPC endpoint empty. -/
def keyOnlyEnv : Env := fun name =>
  if name = "PRIVATE_KEY" then some "0x0123"
  else if name = "SEPOLIA_RPC_URL" then some ""
  else none

/-- Libraries in which every construction and call returns, the upload with
the given result. -/
def sampleWorld (r : UploadResult) : World where
  newJsonRpcProvider _ := .normal ⟨1⟩
  newWallet _ := .normal ⟨2⟩
  connect _ _ := .normal ⟨3⟩
  newSecretsManager _ := .normal ⟨4⟩
  initializeManager _ := .normal ()
  encryptSecrets _ _ := .normal ⟨"0xfeed"⟩
  uploadEncryptedSecretsToDON _ _ := .normal r

/-- Libraries in which `encryptSecrets` throws. -/
def encryptFailsWorld : World :=
  { sampleWorld ⟨true, none, some "3"⟩ with
    encryptSecrets := fun _ _ => .throw ⟨"Error", "encryption failed"⟩ }

/-- Libraries in which `initialize` throws. -/
def initializeFailsWorld : World :=
  { sampleWorld ⟨true, none, some "3"⟩ with
    initializeManager := fun _ => .throw ⟨"Error", "network error"⟩ }

/-- Libraries in which the wallet rejects the private key. -/
def walletFailsWorld : World :=
  { sampleWorld ⟨true, none, some "3"⟩ with
    newWallet := fun _ => .throw ⟨"Error", "invalid private key"⟩ }

/-! ## The shape of a run -/

/-- After a `throw` nothing follows. -/
theorem raise_bind {α β : Type} (e : Thrown) (f : α → Script β) :
    (raise e >>= f) = ([], .throw e) := rfl

/-- A statement that does nothing is followed by the rest. -/
theorem pure_bind_script {α β : Type} (a : α) (f : α → Script β) :
    ((pure a : Script α) >>= f) = f a := by
  show Script.bind ([], .normal a) f = f a
  simp [Script.bind]

/-- A call that throws ends the script with what it threw. -/
theorem call_bind_throw {α β : Type} (event : Completion α → Event) (e : Thrown)
    (f : α → Script β) : (call event (.throw e) >>= f) = ([event (.throw e)], .throw e) := rfl

/-- A call that returns is followed by the rest, run on its value. -/
theorem call_bind_normal {α β : Type} (event : Completion α → Event) (a : α)
    (f : α → Script β) :
    (call event (.normal a) >>= f) = (event (.normal a) :: (f a).1, (f a).2) := rfl

/-- A recorded built-in is followed by the rest. -/
theorem emit_bind {β : Type} (event : Event) (f : Unit → Script β) :
    (emit event >>= f) = (event :: (f ()).1, (f ()).2) := rfl

/-- Every run of `uploadSecrets` has one of the shapes of `RunShape`. -/
theorem uploadSecrets_shape (env : Env) (w : World) : RunShape env w (uploadSecrets env w) := by
  cases h1 : (env "PRIVATE_KEY").not
  case true =>
    have : uploadSecrets env w = ([], .throw privateKeyError) := by
      simp only [uploadSecrets, h1, if_true, raise_bind, privateKeyError]
    rw [this]; exact .noPrivateKey h1
  case false =>
  cases h2 : (env "SEPOLIA_RPC_URL").not
  case true =>
    have : uploadSecrets env w = ([], .throw rpcUrlError) := by
      simp only [uploadSecrets, h1, h2, if_true, raise_bind, rpcUrlError, pure_bind_script,
        Bool.false_eq_true, if_false]
    rw [this]; exact .noRpcUrl h1 h2
  case false =>
  rcases hp : w.newJsonRpcProvider (env "SEPOLIA_RPC_URL") with p | e
  case throw =>
    have : uploadSecrets env w
        = ([.newJsonRpcProvider (env "SEPOLIA_RPC_URL") (.throw e)], .throw e) := by
      simp only [uploadSecrets, h1, h2, hp, pure_bind_script, call_bind_throw,
        Bool.false_eq_true, if_false]
    rw [this]; exact .providerThrew h1 h2 e hp
  rcases hw : w.newWallet (env "PRIVATE_KEY") with wl | e
  case throw =>
    have : uploadSecrets env w
        = ([.newJsonRpcProvider (env "SEPOLIA_RPC_URL") (.normal p),
            .newWallet (env "PRIVATE_KEY") (.throw e)], .throw e) := by
      simp only [uploadSecrets, h1, h2, hp, hw, pure_bind_script, call_bind_throw,
        call_bind_normal, Bool.false_eq_true, if_false]
    rw [this]; exact .walletThrew h1 h2 p e hp hw
  rcases hs : w.connect wl p with s | e
  case throw =>
    have : uploadSecrets env w
        = ([.newJsonRpcProvider (env "SEPOLIA_RPC_URL") (.normal p),
            .newWallet (env "PRIVATE_KEY") (.normal wl),
            .connect wl p (.throw e)], .throw e) := by
      simp only [uploadSecrets, h1, h2, hp, hw, hs, pure_bind_script, call_bind_throw,
        call_bind_normal, Bool.false_eq_true, if_false]
    rw [this]; exact .connectThrew h1 h2 p wl e hp hw hs
  rcases hm : w.newSecretsManager (configOf s) with sm | e
  case throw =>
    have : uploadSecrets env w
        = ([.newJsonRpcProvider (env "SEPOLIA_RPC_URL") (.normal p),
            .newWallet (env "PRIVATE_KEY") (.normal wl),
            .connect wl p (.normal s),
            .newSecretsManager (configOf s) (.throw e)], .throw e) := by
      have hm := hm
      unfold configOf at hm
      simp only [uploadSecrets, h1, h2, hp, hw, hs, hm, pure_bind_script, call_bind_throw,
        call_bind_normal, Bool.false_eq_true, if_false, configOf]
    rw [this]; exact .managerThrew h1 h2 p wl s e hp hw hs hm
  rcases hi : w.initializeManager sm with u | e
  case throw =>
    have : uploadSecrets env w
        = (constructed env p wl s sm ++ [.initializeManager sm (.throw e)], .throw e) := by
      have hm := hm
      unfold configOf at hm
      simp only [uploadSecrets, h1, h2, hp, hw, hs, hm, hi, pure_bind_script, call_bind_throw,
        call_bind_normal, Bool.false_eq_true, if_false, configOf, constructed,
        List.cons_append, List.nil_append]
    rw [this]; exact .initializeThrew h1 h2 p wl s sm e hp hw hs hm hi
  rcases he : w.encryptSecrets sm (secretsOf env) with enc | e
  case throw =>
    have : uploadSecrets env w
        = (constructed env p wl s sm ++
            [.initializeManager sm (.normal ()),
             .encryptSecrets sm (secretsOf env) (.throw e)], .throw e) := by
      have hm := hm
      unfold configOf at hm
      have he := he
      unfold secretsOf at he
      simp only [uploadSecrets, h1, h2, hp, hw, hs, hm, hi, he, pure_bind_script,
        call_bind_throw, call_bind_normal, Bool.false_eq_true, if_false, configOf,
        constructed, secretsOf, List.cons_append, List.nil_append]
    rw [this]; exact .encryptThrew h1 h2 p wl s sm e hp hw hs hm hi he
  rcases hu : w.uploadEncryptedSecretsToDON sm (uploadArgsOf enc) with r | e
  case throw =>
    have : uploadSecrets env w
        = (constructed env p wl s sm ++
            [.initializeManager sm (.normal ()),
             .encryptSecrets sm (secretsOf env) (.normal enc),
             .uploadEncryptedSecretsToDON sm (uploadArgsOf enc) (.throw e)], .throw e) := by
      have hm := hm
      unfold configOf at hm
      have he := he
      unfold secretsOf at he
      have hu := hu
      unfold uploadArgsOf at hu
      simp only [uploadSecrets, h1, h2, hp, hw, hs, hm, hi, he, hu, pure_bind_script,
        call_bind_throw, call_bind_normal, Bool.false_eq_true, if_false, configOf,
        constructed, secretsOf, uploadArgsOf, List.cons_append, List.nil_append]
    rw [this]; exact .uploadThrew h1 h2 p wl s sm enc e hp hw hs hm hi he hu
  cases hr : r.success
  case false =>
    have : uploadSecrets env w
        = (constructed env p wl s sm ++
            [.initializeManager sm (.normal ()),
             .encryptSecrets sm (secretsOf env) (.normal enc),
             .uploadEncryptedSecretsToDON sm (uploadArgsOf enc) (.normal r)],
           .throw (newError ("Failed to upload secrets: " ++ toStringValue r.errorMessage))) := by
      have hm := hm
      unfold configOf at hm
      have he := he
      unfold secretsOf at he
      have hu := hu
      unfold uploadArgsOf at hu
      simp only [uploadSecrets, h1, h2, hp, hw, hs, hm, hi, he, hu, hr, pure_bind_script,
        call_bind_throw, call_bind_normal, Bool.false_eq_true, if_false, configOf,
        constructed, secretsOf, uploadArgsOf, List.cons_append, List.nil_append,
        Bool.not_false, if_true, raise_bind]
    rw [this]; exact .uploadRefused h1 h2 p wl s sm enc r hp hw hs hm hi he hu hr
  case true =>
    have : uploadSecrets env w
        = (constructed env p wl s sm ++
            [.initializeManager sm (.normal ()),
             .encryptSecrets sm (secretsOf env) (.normal enc),
             .uploadEncryptedSecretsToDON sm (uploadArgsOf enc) (.normal r),
             .consoleLog "\n Secrets uploaded successfully! response: [object Object]",
             .parseInt r.version (parseInt r.version),
             .consoleLog ("Secrets version: " ++ numberToString (parseInt r.version))],
           .normal ()) := by
      have hm := hm
      unfold configOf at hm
      have he := he
      unfold secretsOf at he
      have hu := hu
      unfold uploadArgsOf at hu
      simp only [uploadSecrets, h1, h2, hp, hw, hs, hm, hi, he, hu, hr, pure_bind_script,
        call_bind_throw, call_bind_normal, Bool.false_eq_true, if_false, configOf,
        constructed, secretsOf, uploadArgsOf, List.cons_append, List.nil_append,
        Bool.not_true, emit_bind]
      rfl
    rw [this]; exact .uploaded h1 h2 p wl s sm enc r hp hw hs hm hi he hu hr

/-- The falsy environment values are `undefined` and the empty string. -/
theorem not_eq_true_iff (v : EnvValue) : v.not = true ↔ v = none ∨ v = some "" := by
  cases v with
  | none => simp [EnvValue.not]
  | some s => simp [EnvValue.not]

/-- A non-empty string is truthy. -/
theorem not_eq_false_of_some (v : EnvValue) (s : String) (hv : v = some s) (hs : s ≠ "") :
    v.not = false := by
  simp [hv, EnvValue.not, hs]

/-- The run when the first presence check fails. -/
theorem run_noPrivateKey (env : Env) (w : World) (h : (env "PRIVATE_KEY").not = true) :
    uploadSecrets env w = ([], .throw privateKeyError) := by
  have hs := uploadSecrets_shape env w
  generalize uploadSecrets env w = run at hs
  cases hs <;> simp_all

/-- The run when the second presence check fails. -/
theorem run_noRpcUrl (env : Env) (w : World) (h1 : (env "PRIVATE_KEY").not = false)
    (h2 : (env "SEPOLIA_RPC_URL").not = true) :
    uploadSecrets env w = ([], .throw rpcUrlError) := by
  have hs := uploadSecrets_shape env w
  generalize uploadSecrets env w = run at hs
  cases hs <;> simp_all

/-- A message contains the text it ends with. -/
theorem mentions_suffix (pre m : String) : mentions (newError (pre ++ m)) m := by
  unfold mentions newError
  simp only [String.toList]
  exact ⟨pre.data, [], by simp⟩

/-- The call `parseInt(undefined)` yields `NaN`. -/
theorem parseInt_undefined : parseInt none = .nan := by decide

/-- No digit is read exactly when the input does not start with one. -/
theorem radixDigits_isEmpty (R : Nat) (S : List Char) :
    (radixDigits R S).isEmpty = !startsWithDigit R S := by
  cases S with
  | nil => rfl
  | cons c cs =>
    cases hc : digitValue c with
    | none => simp [radixDigits, startsWithDigit, hc]
    | some d =>
      by_cases h : d < R <;> simp [radixDigits, startsWithDigit, hc, h]

/-- A string parses to `NaN` exactly when no number starts it. -/
theorem parseInt_eq_nan_iff (s : String) : parseInt (some s) = .nan ↔ NonNumeric s := by
  unfold NonNumeric parseInt
  simp only [toStringValue]
  rcases hst : stripRadixMark (afterSign s) with ⟨R, S⟩
  simp only [radixDigits_isEmpty]
  cases hd : startsWithDigit R S
  · simp
  · simp only [Bool.not_true, Bool.false_eq_true, if_false, toNumber]
    constructor
    · intro h
      split_ifs at h
    · intro h
      exact absurd h (by decide)

/-! ## Decimal numerals -/

/-- The character of a decimal digit has the digit as its value. -/
theorem digitValue_digitChar (d : Nat) (h : d < 10) : digitValue (Nat.digitChar d) = some d := by
  interval_cases d <;> rfl

/-- The character of a decimal digit is no white space. -/
theorem isStrWhiteSpaceChar_digitChar (d : Nat) (h : d < 10) :
    isStrWhiteSpaceChar (Nat.digitChar d) = false := by
  interval_cases d <;> rfl

/-- The characters `Nat.toDigitsCore` puts in front of its accumulator are the
characters of decimal digits whose value is the number, with no zero in front
unless the number is zero. -/
theorem toDigitsCore_eq (fuel : Nat) : ∀ (n : Nat) (acc : List Char), n < fuel →
    ∃ vs : List Nat, vs ≠ [] ∧ (∀ v ∈ vs, v < 10) ∧ vs.foldl (fun a d => a * 10 + d) 0 = n
      ∧ (vs.head? = some 0 → vs = [0])
      ∧ Nat.toDigitsCore 10 fuel n acc = vs.map Nat.digitChar ++ acc := by
  induction fuel with
  | zero => intro n acc h; omega
  | succ fuel ih =>
    intro n acc h
    by_cases hq : n / 10 = 0
    · refine ⟨[n % 10], by simp, ?_, ?_, ?_, ?_⟩
      · intro v hv
        simp at hv
        omega
      · simp
        omega
      · intro h0
        simpa using h0
      · simp [Nat.toDigitsCore, hq]
    · obtain ⟨vs, hne, hlt, hval, hhead, heq⟩ :=
        ih (n / 10) (Nat.digitChar (n % 10) :: acc) (by omega)
      refine ⟨vs ++ [n % 10], by simp, ?_, ?_, ?_, ?_⟩
      · intro v hv
        rcases List.mem_append.1 hv with hv | hv
        · exact hlt v hv
        · simp at hv
          omega
      · rw [List.foldl_append, hval]
        simp
        omega
      · intro h0
        cases vs with
        | nil => exact absurd rfl hne
        | cons v vt =>
          have : (v :: vt) = [0] := hhead (by simpa using h0)
          rw [this] at hval
          simp at hval
          omega
      · simp [Nat.toDigitsCore, hq, heq]

/-- The decimal numeral of `n` consists of the characters of digits whose
value is `n`. -/
theorem repr_eq (n : Nat) :
    ∃ vs : List Nat, vs ≠ [] ∧ (∀ v ∈ vs, v < 10) ∧ vs.foldl (fun a d => a * 10 + d) 0 = n
      ∧ (vs.head? = some 0 → vs = [0])
      ∧ (Nat.repr n).toList = vs.map Nat.digitChar := by
  obtain ⟨vs, hne, hlt, hval, hhead, heq⟩ := toDigitsCore_eq (n + 1) n [] (by omega)
  refine ⟨vs, hne, hlt, hval, hhead, ?_⟩
  simp [Nat.repr, Nat.toDigits, heq, List.asString]

/-- The characters of decimal digits are read back as these digits. -/
theorem radixDigits_digitChar (vs : List Nat) (hlt : ∀ v ∈ vs, v < 10) :
    radixDigits 10 (vs.map Nat.digitChar) = vs := by
  induction vs with
  | nil => rfl
  | cons v vt ih =>
    have hv : v < 10 := hlt v (by simp)
    simp [radixDigits, digitValue_digitChar v hv, hv]
    exact ih (fun u hu => hlt u (by simp [hu]))

/-- A decimal numeral carries no `0x` mark. -/
theorem stripRadixMark_digitChar (vs : List Nat) (hlt : ∀ v ∈ vs, v < 10)
    (hhead : vs.head? = some 0 → vs = [0]) :
    stripRadixMark (vs.map Nat.digitChar) = (10, vs.map Nat.digitChar) := by
  cases vs with
  | nil => rfl
  | cons v vt =>
    have hv : v < 10 := hlt v (by simp)
    by_cases h0 : v = 0
    · subst h0
      have := hhead rfl
      simp at this
      subst this
      rfl
    · have : Nat.digitChar v ≠ '0' := by
        interval_cases v <;> first | exact absurd rfl h0 | decide
      simp only [List.map_cons]
      unfold stripRadixMark
      split <;> simp_all

/-- A decimal numeral has no leading white space and no sign. -/
theorem afterSign_digitChar (s : String) (vs : List Nat) (hlt : ∀ v ∈ vs, v < 10)
    (hs : s.toList = vs.map Nat.digitChar) :
    afterSign s = vs.map Nat.digitChar
    ∧ ((s.toList.dropWhile isStrWhiteSpaceChar).head? == some '-') = false := by
  cases vs with
  | nil =>
    simp only [afterSign, hs]
    simp
  | cons v vt =>
    have hv : v < 10 := hlt v (by simp)
    have hw := isStrWhiteSpaceChar_digitChar v hv
    have h1 : Nat.digitChar v ≠ '+' := by interval_cases v <;> decide
    have h2 : Nat.digitChar v ≠ '-' := by interval_cases v <;> decide
    simp only [afterSign, hs]
    simp [List.dropWhile, hw, h1, h2]

/-- A number below `2 ^ (k + 1)` has its highest bit at `k` or below. -/
theorem floorLog2Aux_le (fuel : Nat) : ∀ (n k : Nat), n < 2 ^ (k + 1) →
    floorLog2Aux fuel n ≤ k := by
  induction fuel with
  | zero => intro n k _; simp [floorLog2Aux]
  | succ fuel ih =>
    intro n k h
    unfold floorLog2Aux
    split
    · rename_i h2
      cases k with
      | zero => simp at h; omega
      | succ k =>
        have : n / 2 < 2 ^ (k + 1) := by
          rw [Nat.div_lt_iff_lt_mul (by decide)]
          rw [pow_succ] at h
          exact h
        have := ih (n / 2) k this
        omega
    · omega

/-- An integer up to `2 ^ 53` is a Number as it stands. -/
theorem toNumber_exact (n : Nat) (h : n ≤ 2 ^ 53) : toNumber false n = .finite false n := by
  have hr : roundTiesToEven n = n := by
    rcases Nat.lt_or_eq_of_le h with hlt | heq
    · unfold roundTiesToEven
      rw [if_pos hlt]
    · subst heq
      decide
  have hl : floorLog2 n < 1024 := by
    have := floorLog2Aux_le n n 53 (by
      calc n ≤ 2 ^ 53 := h
        _ < 2 ^ (53 + 1) := by norm_num)
    unfold floorLog2
    omega
  simp [toNumber, hr, hl]

/-- On the decimal numeral of `n`, at most `2 ^ 53`, `parseInt` yields `n`. -/
theorem parseInt_repr (n : Nat) (h : n ≤ 2 ^ 53) :
    parseInt (some (Nat.repr n)) = .finite false n := by
  obtain ⟨vs, hne, hlt, hval, hhead, heq⟩ := repr_eq n
  obtain ⟨ha, hneg⟩ := afterSign_digitChar (Nat.repr n) vs hlt heq
  have hz : (radixDigits 10 (vs.map Nat.digitChar)).isEmpty = false := by
    rw [radixDigits_digitChar vs hlt]
    cases vs with
    | nil => exact absurd rfl hne
    | cons v vt => rfl
  simp only [parseInt, toStringValue, hneg, ha, stripRadixMark_digitChar vs hlt hhead, hz,
    radixDigits_digitChar vs hlt, hval]
  by_cases h0 : n = 0
  · simp [h0, hne]
  · simp [h0, hne, toNumber_exact n h]

/-- A Number up to `2 ^ 53` is written as its decimal numeral. -/
theorem numberToString_exact (n : Nat) (h : n ≤ 2 ^ 53) :
    numberToString (.finite false n) = Nat.repr n := by
  cases n with
  | zero => rfl
  | succ m =>
    have hp : positiveToString (m + 1) = Nat.repr (m + 1) := by
      unfold positiveToString
      rw [if_pos h]
    simp [numberToString, hp]

/-- The run when the libraries let it get to `encryptSecrets`: the four
constructions and `initialize` return. -/
theorem encrypt_called (env : Env) (w : World) (p : Provider) (wl : Wallet) (s : Signer)
    (sm : SecretsManager)
    (h1 : (env "PRIVATE_KEY").not = false) (h2 : (env "SEPOLIA_RPC_URL").not = false)
    (hp : w.newJsonRpcProvider (env "SEPOLIA_RPC_URL") = .normal p)
    (hw : w.newWallet (env "PRIVATE_KEY") = .normal wl)
    (hs : w.connect wl p = .normal s)
    (hm : w.newSecretsManager (configOf s) = .normal sm)
    (hi : w.initializeManager sm = .normal ()) :
    ∃ rest, (uploadSecrets env w).1
      = constructed env p wl s sm ++
          .initializeManager sm (.normal ()) ::
          .encryptSecrets sm (secretsOf env) (w.encryptSecrets sm (secretsOf env)) :: rest
      ∧ ∀ ev ∈ rest, ev.isEncryptSecrets = false := by
  have hsh := uploadSecrets_shape env w
  generalize uploadSecrets env w = run at hsh
  cases hsh
  case noPrivateKey h => simp [h1] at h
  case noRpcUrl _ h => simp [h2] at h
  case providerThrew e h => simp [hp] at h
  case walletThrew q e hq h => simp [hw] at h
  case connectThrew q wl' e hq hw' h =>
    rw [hp] at hq; cases hq; rw [hw] at hw'; cases hw'; simp [hs] at h
  case managerThrew q wl' s' e hq hw' hs' h =>
    rw [hp] at hq; cases hq; rw [hw] at hw'; cases hw'; rw [hs] at hs'; cases hs'
    simp [hm] at h
  case initializeThrew q wl' s' sm' e hq hw' hs' hm' h =>
    rw [hp] at hq; cases hq; rw [hw] at hw'; cases hw'; rw [hs] at hs'; cases hs'
    rw [hm] at hm'; cases hm'; simp [hi] at h
  case encryptThrew q wl' s' sm' e hq hw' hs' hm' _ he =>
    rw [hp] at hq; cases hq; rw [hw] at hw'; cases hw'; rw [hs] at hs'; cases hs'
    rw [hm] at hm'; cases hm'
    exact ⟨[], by simp [he], by simp⟩
  case uploadThrew q wl' s' sm' enc e hq hw' hs' hm' _ he hu =>
    rw [hp] at hq; cases hq; rw [hw] at hw'; cases hw'; rw [hs] at hs'; cases hs'
    rw [hm] at hm'; cases hm'
    exact ⟨_, by simp [he]; rfl, by simp [Event.isEncryptSecrets]⟩
  case uploadRefused q wl' s' sm' enc r hq hw' hs' hm' _ he hu hr =>
    rw [hp] at hq; cases hq; rw [hw] at hw'; cases hw'; rw [hs] at hs'; cases hs'
    rw [hm] at hm'; cases hm'
    exact ⟨_, by simp [he]; rfl, by simp [Event.isEncryptSecrets]⟩
  case uploaded q wl' s' sm' enc r hq hw' hs' hm' _ he hu hr =>
    rw [hp] at hq; cases hq; rw [hw] at hw'; cases hw'; rw [hs] at hs'; cases hs'
    rw [hm] at hm'; cases hm'
    exact ⟨_, by simp [he]; rfl, by simp [Event.isEncryptSecrets]⟩

/-! ## The claims -/

/-- C1: when `PRIVATE_KEY` is absent or empty, whatever the other variables
and the libraries, `uploadSecrets` throws the error whose message contains
"private key not provided", and it made no call before: nothing was
constructed and no method of the secrets manager was called. -/
theorem C1_private_key_absent (env : Env) (w : World)
    (h : env "PRIVATE_KEY" = none ∨ env "PRIVATE_KEY" = some "") :
    (uploadSecrets env w).2 = .throw privateKeyError
    ∧ mentions privateKeyError "private key not provided"
    ∧ (uploadSecrets env w).1 = [] := by
  rw [run_noPrivateKey env w ((not_eq_true_iff _).2 h)]
  exact ⟨rfl, by decide, rfl⟩

/-- C1 at a sample run: no variable set. -/
theorem C1_private_key_absent_witness :
    (emptyEnv "PRIVATE_KEY" = none ∨ emptyEnv "PRIVATE_KEY" = some "")
    ∧ (uploadSecrets emptyEnv (sampleWorld ⟨true, none, some "3"⟩)).2 = .throw privateKeyError
    ∧ mentions privateKeyError "private key not provided"
    ∧ (uploadSecrets emptyEnv (sampleWorld ⟨true, none, some "3"⟩)).1 = [] :=
  ⟨Or.inl rfl, C1_private_key_absent emptyEnv (sampleWorld ⟨true, none, some "3"⟩) (Or.inl rfl)⟩

/-- C2: when `PRIVATE_KEY` is a non-empty string and `SEPOLIA_RPC_URL` is
absent or empty, `uploadSecrets` throws the error whose message contains
"rpcUrl not provided", and it made no call at all. -/
theorem C2_rpc_url_absent (env : Env) (w : World) (key : String)
    (hkey : env "PRIVATE_KEY" = some key) (hne : key ≠ "")
    (h : env "SEPOLIA_RPC_URL" = none ∨ env "SEPOLIA_RPC_URL" = some "") :
    (uploadSecrets env w).2 = .throw rpcUrlError
    ∧ mentions rpcUrlError "rpcUrl not provided"
    ∧ (uploadSecrets env w).1 = [] := by
  rw [run_noRpcUrl env w (not_eq_false_of_some _ key hkey hne) ((not_eq_true_iff _).2 h)]
  exact ⟨rfl, by decide, rfl⟩

/-- C2 at a sample run: the private key set, the RPC endpoint empty. -/
theorem C2_rpc_url_absent_witness :
    keyOnlyEnv "PRIVATE_KEY" = some "0x0123" ∧ "0x0123" ≠ ""
    ∧ (keyOnlyEnv "SEPOLIA_RPC_URL" = none ∨ keyOnlyEnv "SEPOLIA_RPC_URL" = some "")
    ∧ (uploadSecrets keyOnlyEnv (sampleWorld ⟨true, none, some "3"⟩)).2 = .throw rpcUrlError
    ∧ mentions rpcUrlError "rpcUrl not provided"
    ∧ (uploadSecrets keyOnlyEnv (sampleWorld ⟨true, none, some "3"⟩)).1 = [] :=
  ⟨rfl, by decide, Or.inr rfl,
    C2_rpc_url_absent keyOnlyEnv (sampleWorld ⟨true, none, some "3"⟩) "0x0123" rfl (by decide)
      (Or.inr rfl)⟩

/-- C3: in a run in which the upload call returned a result with `success`
false and error message `m`, `uploadSecrets` throws the error with message
"Failed to upload secrets: " followed by `m`, which contains `m`; neither
`parseInt` nor `console.log` is called, and the process exits with code 1. -/
theorem C3_upload_refused (env : Env) (w : World) (sm : SecretsManager) (args : UploadArgs)
    (r : UploadResult) (m : String)
    (hup : Event.uploadEncryptedSecretsToDON sm args (.normal r) ∈ (uploadSecrets env w).1)
    (hs : r.success = false) (hm : r.errorMessage = some m) :
    (uploadSecrets env w).2 = .throw (newError ("Failed to upload secrets: " ++ m))
    ∧ mentions (newError ("Failed to upload secrets: " ++ m)) m
    ∧ (∀ ev ∈ (main env w).trace, (∀ s v, ev ≠ .parseInt s v) ∧ (∀ t, ev ≠ .consoleLog t))
    ∧ Event.processExit 1 ∈ (main env w).trace
    ∧ (main env w).exitCode = 1 := by
  refine ⟨?_, mentions_suffix _ m, ?_⟩
  all_goals
    have hsh := uploadSecrets_shape env w
    try unfold main
    generalize uploadSecrets env w = run at hsh hup
    cases hsh <;> simp [constructed] at hup ⊢
  all_goals
    obtain ⟨rfl, rfl, rfl⟩ := hup
    simp_all [toStringValue]

/-- C3 at a sample run: the upload answers "slot taken". -/
theorem C3_upload_refused_witness :
    Event.uploadEncryptedSecretsToDON ⟨4⟩ (uploadArgsOf ⟨"0xfeed"⟩)
        (.normal ⟨false, some "slot taken", none⟩)
      ∈ (uploadSecrets sampleEnv (sampleWorld ⟨false, some "slot taken", none⟩)).1
    ∧ (uploadSecrets sampleEnv (sampleWorld ⟨false, some "slot taken", none⟩)).2
        = .throw (newError ("Failed to upload secrets: " ++ "slot taken"))
    ∧ mentions (newError ("Failed to upload secrets: " ++ "slot taken")) "slot taken"
    ∧ (∀ ev ∈ (main sampleEnv (sampleWorld ⟨false, some "slot taken", none⟩)).trace,
        (∀ s v, ev ≠ .parseInt s v) ∧ (∀ t, ev ≠ .consoleLog t))
    ∧ Event.processExit 1 ∈ (main sampleEnv (sampleWorld ⟨false, some "slot taken", none⟩)).trace
    ∧ (main sampleEnv (sampleWorld ⟨false, some "slot taken", none⟩)).exitCode = 1 :=
  ⟨by decide,
    C3_upload_refused sampleEnv (sampleWorld ⟨false, some "slot taken", none⟩) ⟨4⟩
      (uploadArgsOf ⟨"0xfeed"⟩) ⟨false, some "slot taken", none⟩ "slot taken" (by decide) rfl rfl⟩

/-- C4, as amended: in a run in which the upload call returned a result with
`success` true and, as version, the decimal numeral of a natural number `n`
that is at most `2 ^ 53`, `uploadSecrets` returns, `parseInt` yields `n`, the
line logged is "Secrets version: " followed by the numeral of `n`, and the
process ends with code 0 without reaching `process.exit(1)`. -/
theorem C4_version_logged (env : Env) (w : World) (sm : SecretsManager) (args : UploadArgs)
    (r : UploadResult) (n : Nat)
    (hup : Event.uploadEncryptedSecretsToDON sm args (.normal r) ∈ (uploadSecrets env w).1)
    (hs : r.success = true) (hv : r.version = some (Nat.repr n)) (hn : n ≤ 2 ^ 53) :
    (uploadSecrets env w).2 = .normal ()
    ∧ Event.parseInt (some (Nat.repr n)) (.finite false n) ∈ (uploadSecrets env w).1
    ∧ Event.consoleLog ("Secrets version: " ++ Nat.repr n) ∈ (uploadSecrets env w).1
    ∧ (main env w).exitCode = 0
    ∧ Event.processExit 1 ∉ (main env w).trace := by
  have hp := parseInt_repr n hn
  have ht := numberToString_exact n hn
  refine ⟨?_, ?_, ?_, ?_, ?_⟩
  all_goals
    have hsh := uploadSecrets_shape env w
    try unfold main
    generalize uploadSecrets env w = run at hsh hup
    cases hsh <;> simp [constructed] at hup ⊢
  all_goals
    obtain ⟨rfl, rfl, rfl⟩ := hup
    simp_all

/-- C4 at a sample run: the version "3" is logged as 3. -/
theorem C4_version_logged_witness :
    Event.uploadEncryptedSecretsToDON ⟨4⟩ (uploadArgsOf ⟨"0xfeed"⟩)
        (.normal ⟨true, none, some (Nat.repr 3)⟩)
      ∈ (uploadSecrets sampleEnv (sampleWorld ⟨true, none, some (Nat.repr 3)⟩)).1
    ∧ 3 ≤ 2 ^ 53
    ∧ (uploadSecrets sampleEnv (sampleWorld ⟨true, none, some (Nat.repr 3)⟩)).2 = .normal ()
    ∧ Event.parseInt (some (Nat.repr 3)) (.finite false 3)
        ∈ (uploadSecrets sampleEnv (sampleWorld ⟨true, none, some (Nat.repr 3)⟩)).1
    ∧ Event.consoleLog ("Secrets version: " ++ Nat.repr 3)
        ∈ (uploadSecrets sampleEnv (sampleWorld ⟨true, none, some (Nat.repr 3)⟩)).1
    ∧ (main sampleEnv (sampleWorld ⟨true, none, some (Nat.repr 3)⟩)).exitCode = 0
    ∧ Event.processExit 1 ∉ (main sampleEnv (sampleWorld ⟨true, none, some (Nat.repr 3)⟩)).trace :=
  ⟨by decide, by decide,
    C4_version_logged sampleEnv (sampleWorld ⟨true, none, some (Nat.repr 3)⟩) ⟨4⟩
      (uploadArgsOf ⟨"0xfeed"⟩) ⟨true, none, some (Nat.repr 3)⟩ 3 (by decide) rfl rfl
      (by decide)⟩

/-- C4 as stated fails: with the version "9007199254740993", the numeral of
`2 ^ 53 + 1`, the upload call returns `success` true, and the run logs
"Secrets version: 9007199254740992", not the numeral it was given. -/
theorem C4_counterexample :
    Event.uploadEncryptedSecretsToDON ⟨4⟩ (uploadArgsOf ⟨"0xfeed"⟩)
        (.normal ⟨true, none, some (Nat.repr 9007199254740993)⟩)
      ∈ (uploadSecrets sampleEnv (sampleWorld ⟨true, none, some (Nat.repr 9007199254740993)⟩)).1
    ∧ Event.consoleLog ("Secrets version: " ++ Nat.repr 9007199254740993)
      ∉ (uploadSecrets sampleEnv (sampleWorld ⟨true, none, some (Nat.repr 9007199254740993)⟩)).1
    ∧ Event.consoleLog "Secrets version: 9007199254740992"
      ∈ (uploadSecrets sampleEnv (sampleWorld ⟨true, none, some (Nat.repr 9007199254740993)⟩)).1
    ∧ Event.parseInt (some "9007199254740993") (.finite false 9007199254740992)
      ∈ (uploadSecrets sampleEnv (sampleWorld ⟨true, none, some (Nat.repr 9007199254740993)⟩)).1 := by
  decide

/-- C5, as amended: in an environment that passes the two presence checks, when
the four constructions and `initialize` return, `encryptSecrets` is called,
once, and its argument has exactly the two keys `alpacaKey` and
`alpacaSecret`, in this order, with the values of `ALPACA_API_KEY` and
`ALPACA_SECRET_KEY`; a variable that is unset leaves its key in place with the
value `undefined`; and in every run in this environment, whatever the
libraries do, a call of `encryptSecrets` has this same argument. -/
theorem C5_secret_bundle (env : Env) (w : World) (p : Provider) (wl : Wallet) (s : Signer)
    (sm : SecretsManager)
    (h1 : (env "PRIVATE_KEY").not = false) (h2 : (env "SEPOLIA_RPC_URL").not = false)
    (hp : w.newJsonRpcProvider (env "SEPOLIA_RPC_URL") = .normal p)
    (hw : w.newWallet (env "PRIVATE_KEY") = .normal wl)
    (hs : w.connect wl p = .normal s)
    (hm : w.newSecretsManager (configOf s) = .normal sm)
    (hi : w.initializeManager sm = .normal ()) :
    ∃ secrets : Secrets,
      (uploadSecrets env w).1.filter Event.isEncryptSecrets
        = [.encryptSecrets sm secrets (w.encryptSecrets sm secrets)]
      ∧ secrets
        = [("alpacaKey", env "ALPACA_API_KEY"), ("alpacaSecret", env "ALPACA_SECRET_KEY")]
      ∧ secrets.map Prod.fst = ["alpacaKey", "alpacaSecret"]
      ∧ (env "ALPACA_API_KEY" = none → ("alpacaKey", none) ∈ secrets)
      ∧ (env "ALPACA_SECRET_KEY" = none → ("alpacaSecret", none) ∈ secrets)
      ∧ ∀ (w2 : World) (sm2 : SecretsManager) (secrets2 : Secrets)
          (res2 : Completion EncryptedSecrets),
          Event.encryptSecrets sm2 secrets2 res2 ∈ (uploadSecrets env w2).1 →
          secrets2 = secrets := by
  obtain ⟨rest, hrun, hrest⟩ := encrypt_called env w p wl s sm h1 h2 hp hw hs hm hi
  refine ⟨secretsOf env, ?_, rfl, rfl, ?_, ?_, ?_⟩
  · have hnil : rest.filter Event.isEncryptSecrets = [] := by
      rw [List.filter_eq_nil_iff]
      intro ev hev
      simp [hrest ev hev]
    rw [hrun]
    simp [List.filter_append, List.filter_cons, constructed, Event.isEncryptSecrets, hnil]
  · intro hnone
    simp [secretsOf, hnone]
  · intro hnone
    simp [secretsOf, hnone]
  · intro w2 sm2 secrets2 res2 h
    have hsh := uploadSecrets_shape env w2
    generalize uploadSecrets env w2 = run at hsh h
    cases hsh <;> simp [constructed] at h <;> exact h.2.1

/-- C5 at a sample run with neither secret set. -/
theorem C5_secret_bundle_witness :
    (requiredOnlyEnv "PRIVATE_KEY").not = false
    ∧ (requiredOnlyEnv "SEPOLIA_RPC_URL").not = false
    ∧ ∃ secrets : Secrets,
      (uploadSecrets requiredOnlyEnv encryptFailsWorld).1.filter Event.isEncryptSecrets
        = [.encryptSecrets ⟨4⟩ secrets (encryptFailsWorld.encryptSecrets ⟨4⟩ secrets)]
      ∧ secrets
        = [("alpacaKey", requiredOnlyEnv "ALPACA_API_KEY"),
           ("alpacaSecret", requiredOnlyEnv "ALPACA_SECRET_KEY")]
      ∧ secrets.map Prod.fst = ["alpacaKey", "alpacaSecret"]
      ∧ (requiredOnlyEnv "ALPACA_API_KEY" = none → ("alpacaKey", none) ∈ secrets)
      ∧ (requiredOnlyEnv "ALPACA_SECRET_KEY" = none → ("alpacaSecret", none) ∈ secrets)
      ∧ ∀ (w2 : World) (sm2 : SecretsManager) (secrets2 : Secrets)
          (res2 : Completion EncryptedSecrets),
          Event.encryptSecrets sm2 secrets2 res2 ∈ (uploadSecrets requiredOnlyEnv w2).1 →
          secrets2 = secrets :=
  ⟨by decide, by decide,
    C5_secret_bundle requiredOnlyEnv encryptFailsWorld ⟨1⟩ ⟨2⟩ ⟨3⟩ ⟨4⟩ (by decide) (by decide)
      rfl rfl rfl rfl rfl⟩

/-- C5 as stated fails: the environment passes both presence checks, the four
constructions return, `initialize` throws, and `encryptSecrets` is never
called: no mapping is passed. -/
theorem C5_counterexample :
    (sampleEnv "PRIVATE_KEY").not = false
    ∧ (sampleEnv "SEPOLIA_RPC_URL").not = false
    ∧ uploadSecrets sampleEnv initializeFailsWorld
      = (constructed sampleEnv ⟨1⟩ ⟨2⟩ ⟨3⟩ ⟨4⟩
          ++ [.initializeManager ⟨4⟩ (.throw ⟨"Error", "network error"⟩)],
         .throw ⟨"Error", "network error"⟩)
    ∧ (uploadSecrets sampleEnv initializeFailsWorld).1.filter Event.isEncryptSecrets = [] := by
  decide

/-- C6: whenever `uploadEncryptedSecretsToDON` is called, in any environment
and with any behaviour of the libraries, its `slotId` is 0, its
`minutesUntilExpiration` is 1440 and its `gatewayUrls` is the list of the two
gateway addresses of lines 7-10. -/
theorem C6_fixed_upload_arguments (env : Env) (w : World) (sm : SecretsManager)
    (args : UploadArgs) (res : Completion UploadResult)
    (h : Event.uploadEncryptedSecretsToDON sm args res ∈ (uploadSecrets env w).1) :
    args.slotId = 0
    ∧ args.minutesUntilExpiration = 1440
    ∧ args.gatewayUrls =
        ["https://01.functions-gateway.testnet.chain.link/",
         "https://02.functions-gateway.testnet.chain.link/"] := by
  have hsh := uploadSecrets_shape env w
  generalize uploadSecrets env w = run at hsh h
  cases hsh <;> simp [constructed] at h <;> obtain ⟨-, rfl, -⟩ := h <;> exact ⟨rfl, rfl, rfl⟩

/-- C6 at a sample run. -/
theorem C6_fixed_upload_arguments_witness :
    Event.uploadEncryptedSecretsToDON ⟨4⟩ (uploadArgsOf ⟨"0xfeed"⟩)
        (.normal ⟨true, none, some "3"⟩)
      ∈ (uploadSecrets sampleEnv (sampleWorld ⟨true, none, some "3"⟩)).1
    ∧ (uploadArgsOf ⟨"0xfeed"⟩).slotId = 0
    ∧ (uploadArgsOf ⟨"0xfeed"⟩).minutesUntilExpiration = 1440
    ∧ (uploadArgsOf ⟨"0xfeed"⟩).gatewayUrls =
        ["https://01.functions-gateway.testnet.chain.link/",
         "https://02.functions-gateway.testnet.chain.link/"] :=
  ⟨by decide,
    C6_fixed_upload_arguments sampleEnv (sampleWorld ⟨true, none, some "3"⟩) ⟨4⟩
      (uploadArgsOf ⟨"0xfeed"⟩) (.normal ⟨true, none, some "3"⟩) (by decide)⟩

/-- C7: when a call of `initialize`, `encryptSecrets` or
`uploadEncryptedSecretsToDON` throws `e`, `uploadSecrets` throws this very
`e`; the call that threw is the last call it makes, after calls none of which
failed (so it is made once, with no retry), and the handler at the top level
prints `e` and exits with code 1. -/
theorem C7_failure_propagates (env : Env) (w : World) (e : Thrown) (ev : Event)
    (hev : ev ∈ (uploadSecrets env w).1) (hthrew : ev.threw e) :
    (uploadSecrets env w).2 = .throw e
    ∧ (∃ before, (uploadSecrets env w).1 = before ++ [ev]
        ∧ (∀ x ∈ before, x.failed = false)
        ∧ (∀ x ∈ before, x.isCollaboratorCall = true → x ≠ ev))
    ∧ main env w
        = { trace := (uploadSecrets env w).1 ++ [.consoleError e, .processExit 1]
            exitCode := 1 } := by
  have hs := uploadSecrets_shape env w
  unfold main
  generalize uploadSecrets env w = run at hs hev
  refine ⟨?_, ⟨run.1.dropLast, ?_, ?_, ?_⟩, ?_⟩
  all_goals
    cases hs <;> simp [constructed] at hev ⊢ <;> (try casesm* _ ∨ _) <;> subst_vars <;>
      simp [Event.threw, Event.failed, Event.isCollaboratorCall] at hthrew ⊢ <;>
      simp [hthrew]

/-- C7 at a sample run in which `encryptSecrets` throws. -/
theorem C7_failure_propagates_witness :
    Event.encryptSecrets ⟨4⟩ [("alpacaKey", some "key"), ("alpacaSecret", none)]
        (.throw ⟨"Error", "encryption failed"⟩)
      ∈ (uploadSecrets sampleEnv encryptFailsWorld).1
    ∧ (uploadSecrets sampleEnv encryptFailsWorld).2 = .throw ⟨"Error", "encryption failed"⟩
    ∧ (∃ before, (uploadSecrets sampleEnv encryptFailsWorld).1
          = before ++ [Event.encryptSecrets ⟨4⟩ [("alpacaKey", some "key"), ("alpacaSecret", none)]
              (.throw ⟨"Error", "encryption failed"⟩)]
        ∧ (∀ x ∈ before, x.failed = false)
        ∧ (∀ x ∈ before, x.isCollaboratorCall = true →
            x ≠ Event.encryptSecrets ⟨4⟩ [("alpacaKey", some "key"), ("alpacaSecret", none)]
              (.throw ⟨"Error", "encryption failed"⟩)))
    ∧ main sampleEnv encryptFailsWorld
        = { trace := (uploadSecrets sampleEnv encryptFailsWorld).1
              ++ [.consoleError ⟨"Error", "encryption failed"⟩, .processExit 1]
            exitCode := 1 } :=
  ⟨by decide,
    C7_failure_propagates sampleEnv encryptFailsWorld ⟨"Error", "encryption failed"⟩
      (Event.encryptSecrets ⟨4⟩ [("alpacaKey", some "key"), ("alpacaSecret", none)]
        (.throw ⟨"Error", "encryption failed"⟩)) (by decide) rfl⟩

/-- C8, as amended: in an environment that passes the two presence checks, when
the provider, the wallet, the signer and the secrets manager are constructed
and none of the three methods throws, the methods called are exactly
`initialize`, then `encryptSecrets`, then `uploadEncryptedSecretsToDON`, once
each whatever the upload result, and the `encryptedSecretsHexstring` of the
upload is the `encryptedSecrets` field of what `encryptSecrets` returned. -/
theorem C8_three_calls_in_order (env : Env) (w : World) (p : Provider) (wl : Wallet)
    (s : Signer) (sm : SecretsManager) (enc : EncryptedSecrets) (r : UploadResult)
    (h1 : (env "PRIVATE_KEY").not = false) (h2 : (env "SEPOLIA_RPC_URL").not = false)
    (hp : w.newJsonRpcProvider (env "SEPOLIA_RPC_URL") = .normal p)
    (hw : w.newWallet (env "PRIVATE_KEY") = .normal wl)
    (hs : w.connect wl p = .normal s)
    (hm : w.newSecretsManager (configOf s) = .normal sm)
    (hi : w.initializeManager sm = .normal ())
    (he : w.encryptSecrets sm (secretsOf env) = .normal enc)
    (hu : w.uploadEncryptedSecretsToDON sm (uploadArgsOf enc) = .normal r) :
    (uploadSecrets env w).1.filter Event.isCollaboratorCall
      = [.initializeManager sm (.normal ()),
         .encryptSecrets sm (secretsOf env) (.normal enc),
         .uploadEncryptedSecretsToDON sm (uploadArgsOf enc) (.normal r)]
    ∧ (uploadArgsOf enc).encryptedSecretsHexstring = enc.encryptedSecrets := by
  refine ⟨?_, rfl⟩
  have hsh := uploadSecrets_shape env w
  generalize uploadSecrets env w = run at hsh
  cases hsh
  case noPrivateKey h => simp [h1] at h
  case noRpcUrl _ h => simp [h2] at h
  case providerThrew e h => simp [hp] at h
  case walletThrew q e hq h => simp [hw] at h
  case connectThrew q wl' e hq hw' h =>
    rw [hp] at hq; cases hq; rw [hw] at hw'; cases hw'; simp [hs] at h
  case managerThrew q wl' s' e hq hw' hs' h =>
    rw [hp] at hq; cases hq; rw [hw] at hw'; cases hw'; rw [hs] at hs'; cases hs'
    simp [hm] at h
  case initializeThrew q wl' s' sm' e hq hw' hs' hm' h =>
    rw [hp] at hq; cases hq; rw [hw] at hw'; cases hw'; rw [hs] at hs'; cases hs'
    rw [hm] at hm'; cases hm'; simp [hi] at h
  case encryptThrew q wl' s' sm' e hq hw' hs' hm' _ h =>
    rw [hp] at hq; cases hq; rw [hw] at hw'; cases hw'; rw [hs] at hs'; cases hs'
    rw [hm] at hm'; cases hm'; simp [he] at h
  case uploadThrew q wl' s' sm' enc' e hq hw' hs' hm' _ he' h =>
    rw [hp] at hq; cases hq; rw [hw] at hw'; cases hw'; rw [hs] at hs'; cases hs'
    rw [hm] at hm'; cases hm'; rw [he] at he'; cases he'; simp [hu] at h
  case uploadRefused q wl' s' sm' enc' r' hq hw' hs' hm' _ he' hu' hr =>
    rw [hp] at hq; cases hq; rw [hw] at hw'; cases hw'; rw [hs] at hs'; cases hs'
    rw [hm] at hm'; cases hm'; rw [he] at he'; cases he'; rw [hu] at hu'; cases hu'
    simp [constructed, Event.isCollaboratorCall]
  case uploaded q wl' s' sm' enc' r' hq hw' hs' hm' _ he' hu' hr =>
    rw [hp] at hq; cases hq; rw [hw] at hw'; cases hw'; rw [hs] at hs'; cases hs'
    rw [hm] at hm'; cases hm'; rw [he] at he'; cases he'; rw [hu] at hu'; cases hu'
    simp [constructed, Event.isCollaboratorCall]

/-- C8 at a sample run in which the upload is refused. -/
theorem C8_three_calls_in_order_witness :
    (sampleEnv "PRIVATE_KEY").not = false
    ∧ (sampleEnv "SEPOLIA_RPC_URL").not = false
    ∧ (uploadSecrets sampleEnv (sampleWorld ⟨false, some "slot taken", none⟩)).1.filter
          Event.isCollaboratorCall
        = [.initializeManager ⟨4⟩ (.normal ()),
           .encryptSecrets ⟨4⟩ (secretsOf sampleEnv) (.normal ⟨"0xfeed"⟩),
           .uploadEncryptedSecretsToDON ⟨4⟩ (uploadArgsOf ⟨"0xfeed"⟩)
             (.normal ⟨false, some "slot taken", none⟩)]
    ∧ (uploadArgsOf ⟨"0xfeed"⟩).encryptedSecretsHexstring
        = (⟨"0xfeed"⟩ : EncryptedSecrets).encryptedSecrets :=
  ⟨by decide, by decide,
    C8_three_calls_in_order sampleEnv (sampleWorld ⟨false, some "slot taken", none⟩)
      ⟨1⟩ ⟨2⟩ ⟨3⟩ ⟨4⟩ ⟨"0xfeed"⟩ ⟨false, some "slot taken", none⟩ (by decide) (by decide)
      rfl rfl rfl rfl rfl rfl rfl⟩

/-- C8 as stated fails: with both required variables present and a wallet
constructor that rejects the private key, the run stops at the construction
of the wallet: no method of the secrets manager throws, and yet none of the
three is called. -/
theorem C8_counterexample :
    (sampleEnv "PRIVATE_KEY").not = false
    ∧ (sampleEnv "SEPOLIA_RPC_URL").not = false
    ∧ uploadSecrets sampleEnv walletFailsWorld
      = ([.newJsonRpcProvider (some "https://rpc.example") (.normal ⟨1⟩),
          .newWallet (some "0x0123") (.throw ⟨"Error", "invalid private key"⟩)],
         .throw ⟨"Error", "invalid private key"⟩)
    ∧ (∀ ev ∈ (uploadSecrets sampleEnv walletFailsWorld).1, ev.failed = false)
    ∧ (uploadSecrets sampleEnv walletFailsWorld).1.filter Event.isCollaboratorCall = [] := by
  decide

/-- C9: when both `PRIVATE_KEY` and `SEPOLIA_RPC_URL` are absent or empty,
`uploadSecrets` throws the private-key error, whose message does not contain
"rpcUrl not provided"; and for two environments that agree on these two
variables, whatever else they hold and whatever the libraries do, each of the
two presence checks fails in the one exactly when it fails in the other. -/
theorem C9_private_key_checked_first (env : Env) (w : World)
    (hkey : env "PRIVATE_KEY" = none ∨ env "PRIVATE_KEY" = some "")
    (_hurl : env "SEPOLIA_RPC_URL" = none ∨ env "SEPOLIA_RPC_URL" = some "") :
    uploadSecrets env w = ([], .throw privateKeyError)
    ∧ mentions privateKeyError "private key not provided"
    ∧ ¬ mentions privateKeyError "rpcUrl not provided"
    ∧ ∀ (env1 env2 : Env) (w1 w2 : World),
        env1 "PRIVATE_KEY" = env2 "PRIVATE_KEY" →
        env1 "SEPOLIA_RPC_URL" = env2 "SEPOLIA_RPC_URL" →
        (uploadSecrets env1 w1 = ([], .throw privateKeyError)
            ↔ uploadSecrets env2 w2 = ([], .throw privateKeyError))
        ∧ (uploadSecrets env1 w1 = ([], .throw rpcUrlError)
            ↔ uploadSecrets env2 w2 = ([], .throw rpcUrlError)) := by
  refine ⟨run_noPrivateKey env w ((not_eq_true_iff _).2 hkey), by decide, by decide, ?_⟩
  intro env1 env2 w1 w2 h1 h2
  have key : ∀ (env : Env) (w : World),
      (uploadSecrets env w = ([], .throw privateKeyError) ↔ (env "PRIVATE_KEY").not = true)
      ∧ (uploadSecrets env w = ([], .throw rpcUrlError)
          ↔ (env "PRIVATE_KEY").not = false ∧ (env "SEPOLIA_RPC_URL").not = true) := by
    intro env w
    have hsh := uploadSecrets_shape env w
    generalize uploadSecrets env w = run at hsh
    cases hsh <;> simp_all [constructed, privateKeyError, rpcUrlError, newError]
  rw [(key env1 w1).1, (key env2 w2).1, (key env1 w1).2, (key env2 w2).2, h1, h2]
  exact ⟨Iff.rfl, Iff.rfl⟩

/-- C9 at a sample run: no variable set. -/
theorem C9_private_key_checked_first_witness :
    (emptyEnv "PRIVATE_KEY" = none ∨ emptyEnv "PRIVATE_KEY" = some "")
    ∧ (emptyEnv "SEPOLIA_RPC_URL" = none ∨ emptyEnv "SEPOLIA_RPC_URL" = some "")
    ∧ uploadSecrets emptyEnv encryptFailsWorld = ([], .throw privateKeyError)
    ∧ mentions privateKeyError "private key not provided"
    ∧ ¬ mentions privateKeyError "rpcUrl not provided"
    ∧ ∀ (env1 env2 : Env) (w1 w2 : World),
        env1 "PRIVATE_KEY" = env2 "PRIVATE_KEY" →
        env1 "SEPOLIA_RPC_URL" = env2 "SEPOLIA_RPC_URL" →
        (uploadSecrets env1 w1 = ([], .throw privateKeyError)
            ↔ uploadSecrets env2 w2 = ([], .throw privateKeyError))
        ∧ (uploadSecrets env1 w1 = ([], .throw rpcUrlError)
            ↔ uploadSecrets env2 w2 = ([], .throw rpcUrlError)) :=
  ⟨Or.inl rfl, Or.inl rfl,
    C9_private_key_checked_first emptyEnv encryptFailsWorld (Or.inl rfl) (Or.inl rfl)⟩

/-- C10, as amended: in a run in which the upload call returned a result,
`uploadSecrets` returns exactly when the `success` flag of the result is
true, whatever its version and error message, and throws the upload error
when the flag is false; when the flag is true and the version is absent or no
number starts it, `parseInt` yields `NaN` and the line logged is
"Secrets version: NaN"; when a number starts the version, `parseInt` does not
yield `NaN`. -/
theorem C10_success_flag_decides (env : Env) (w : World) (sm : SecretsManager)
    (args : UploadArgs) (r : UploadResult)
    (hup : Event.uploadEncryptedSecretsToDON sm args (.normal r) ∈ (uploadSecrets env w).1) :
    ((uploadSecrets env w).2 = .normal () ↔ r.success = true)
    ∧ (r.success = false →
        (uploadSecrets env w).2
          = .throw (newError ("Failed to upload secrets: " ++ toStringValue r.errorMessage)))
    ∧ (r.success = true → (r.version = none ∨ ∃ s, r.version = some s ∧ NonNumeric s) →
        Event.parseInt r.version .nan ∈ (uploadSecrets env w).1
        ∧ Event.consoleLog "Secrets version: NaN" ∈ (uploadSecrets env w).1)
    ∧ (r.success = true → ∀ s, r.version = some s → ¬ NonNumeric s →
        Event.parseInt r.version (parseInt r.version) ∈ (uploadSecrets env w).1
        ∧ parseInt r.version ≠ .nan) := by
  have hnan : (r.version = none ∨ ∃ s, r.version = some s ∧ NonNumeric s) →
      parseInt r.version = .nan := by
    rintro (h | ⟨s, h, hs⟩)
    · rw [h]; exact parseInt_undefined
    · rw [h]; exact (parseInt_eq_nan_iff s).2 hs
  have hnum : ∀ s, r.version = some s → ¬ NonNumeric s → parseInt r.version ≠ .nan := by
    intro s h hs hp
    rw [h] at hp
    exact hs ((parseInt_eq_nan_iff s).1 hp)
  have hsh := uploadSecrets_shape env w
  generalize uploadSecrets env w = run at hsh hup
  cases hsh <;> simp [constructed] at hup ⊢
  case uploadRefused p wl s sm2 enc r2 _ _ _ _ _ _ _ hr =>
    obtain ⟨-, -, rfl⟩ := hup
    simp [hr]
  case uploaded p wl s sm2 enc r2 _ _ _ _ _ _ _ hr =>
    obtain ⟨-, -, rfl⟩ := hup
    refine ⟨hr, ?_, ?_⟩
    · intro _ hv
      rw [hnan hv]
      simp [numberToString]
    · intro _ s h hs
      exact ⟨⟨rfl, rfl⟩, hnum s h hs⟩

/-- C10 at a sample run: the upload succeeds and returns no version. -/
theorem C10_success_flag_decides_witness :
    Event.uploadEncryptedSecretsToDON ⟨4⟩ (uploadArgsOf ⟨"0xfeed"⟩)
        (.normal ⟨true, none, none⟩)
      ∈ (uploadSecrets sampleEnv (sampleWorld ⟨true, none, none⟩)).1
    ∧ ((uploadSecrets sampleEnv (sampleWorld ⟨true, none, none⟩)).2 = .normal ()
        ↔ (⟨true, none, none⟩ : UploadResult).success = true)
    ∧ ((⟨true, none, none⟩ : UploadResult).success = false →
        (uploadSecrets sampleEnv (sampleWorld ⟨true, none, none⟩)).2
          = .throw (newError ("Failed to upload secrets: "
              ++ toStringValue (⟨true, none, none⟩ : UploadResult).errorMessage)))
    ∧ ((⟨true, none, none⟩ : UploadResult).success = true →
        ((⟨true, none, none⟩ : UploadResult).version = none
          ∨ ∃ s, (⟨true, none, none⟩ : UploadResult).version = some s ∧ NonNumeric s) →
        Event.parseInt (⟨true, none, none⟩ : UploadResult).version .nan
          ∈ (uploadSecrets sampleEnv (sampleWorld ⟨true, none, none⟩)).1
        ∧ Event.consoleLog "Secrets version: NaN"
          ∈ (uploadSecrets sampleEnv (sampleWorld ⟨true, none, none⟩)).1)
    ∧ ((⟨true, none, none⟩ : UploadResult).success = true →
        ∀ s, (⟨true, none, none⟩ : UploadResult).version = some s → ¬ NonNumeric s →
        Event.parseInt (⟨true, none, none⟩ : UploadResult).version
            (parseInt (⟨true, none, none⟩ : UploadResult).version)
          ∈ (uploadSecrets sampleEnv (sampleWorld ⟨true, none, none⟩)).1
        ∧ parseInt (⟨true, none, none⟩ : UploadResult).version ≠ .nan) :=
  ⟨by decide,
    C10_success_flag_decides sampleEnv (sampleWorld ⟨true, none, none⟩) ⟨4⟩
      (uploadArgsOf ⟨"0xfeed"⟩) ⟨true, none, none⟩ (by decide)⟩

/-- C10 as stated fails: the version "12abc" is not a number (it holds
letters), the upload call returns `success` true, and the run logs
"Secrets version: 12", not `NaN`. -/
theorem C10_counterexample :
    "12abc".toList.all isDecimalDigit = false
    ∧ Event.uploadEncryptedSecretsToDON ⟨4⟩ (uploadArgsOf ⟨"0xfeed"⟩)
        (.normal ⟨true, none, some "12abc"⟩)
      ∈ (uploadSecrets sampleEnv (sampleWorld ⟨true, none, some "12abc"⟩)).1
    ∧ (uploadSecrets sampleEnv (sampleWorld ⟨true, none, some "12abc"⟩)).2 = .normal ()
    ∧ Event.parseInt (some "12abc") (.finite false 12)
      ∈ (uploadSecrets sampleEnv (sampleWorld ⟨true, none, some "12abc"⟩)).1
    ∧ Event.consoleLog "Secrets version: 12"
      ∈ (uploadSecrets sampleEnv (sampleWorld ⟨true, none, some "12abc"⟩)).1
    ∧ Event.consoleLog "Secrets version: NaN"
      ∉ (uploadSecrets sampleEnv (sampleWorld ⟨true, none, some "12abc"⟩)).1 := by
  decide

end Uniq
